import Mathlib

/-!
Verification of the Evidence.dev ClickHouse connector (src/src/index.js).

The connector is a thin adapter: `getRunner` logs one debug line, builds a
client handle from the configuration, and returns an async closure that
submits a query (format JSONEachRow) to the client, materialises the rows,
and wraps them in the normalized result envelope
{rows, columnTypes, expectedRowCount}.  `testConnection` is a stub that
always returns true.

Shallow-embedding conventions:
* JavaScript runtime values delivered by the client's JSON deserialization
  are the inductive `JSValue`; IEEE numbers are modelled as rationals, since
  only the runtime tag (`typeof`) and value identity matter to the adapter.
* A JS row object is an association list in insertion order; `Object.keys`
  is the list of first components and property access is `jsGet`.  Real JS
  objects never have duplicate keys, so theorems that need it assume the
  key list is `Nodup`.
* The external ClickHouse client is an oracle `ClientQuery → Except JSError
  (List Row)` covering both `client.query` and `rows.json()`; a failure of
  either await is the `Except.error` case.
* Observable side effects (console writes, network submissions) are recorded
  in an explicit `List Effect` trace returned next to the value.
-/

namespace Clickhouse

/-- Runtime values a JSONEachRow row can carry, tagged like JavaScript
values.  `obj` stands for any non-null object value, identified opaquely;
`undefined` is the result of accessing an absent property. -/
inductive JSValue where
  | num (v : ℚ)
  | str (s : String)
  | null
  | boolean (b : Bool)
  | obj (id : Nat)
  | undefined
deriving DecidableEq

/-- JavaScript's typeof operator on the modelled values: note
typeof null is "object". -/
def JSValue.typeof : JSValue → String
  | .num _ => "number"
  | .str _ => "string"
  | .null => "object"
  | .boolean _ => "boolean"
  | .obj _ => "object"
  | .undefined => "undefined"

/-- A row object: column name to value, in insertion order. -/
abbrev Row := List (String × JSValue)

/-- Object.keys: own enumerable keys in insertion order. -/
def objectKeys (row : Row) : List String := row.map Prod.fst

/-- JavaScript property access row[key]: the value of the first entry with
that key, or undefined when absent. -/
def jsGet (row : Row) (key : String) : JSValue :=
  match row.find? (fun kv => kv.1 == key) with
  | some kv => kv.2
  | none => JSValue.undefined

/-- EvidenceType enum from the db-commons package; the adapter only ever
emits NUMBER or STRING. -/
inductive EvidenceType where
  | BOOLEAN
  | NUMBER
  | STRING
  | DATE
deriving DecidableEq

/-- One column-type descriptor of the output envelope (index.js lines
64-68). -/
structure ColumnType where
  name : String
  evidenceType : EvidenceType
  typeFidelity : String
deriving DecidableEq

/-- The normalized result envelope built at index.js lines 62-70. -/
structure QueryResult where
  rows : List Row
  columnTypes : List ColumnType
  expectedRowCount : Nat
deriving DecidableEq

/-- result[0] || {} : the first row, or the empty object when the result
set is empty. -/
def firstRowOrEmpty (result : List Row) : Row := result.headD []

/-- Object.keys(result[0] || {}).map(key => ({name, evidenceType,
typeFidelity})) from index.js lines 64-68: one descriptor per key of the
first row, NUMBER when typeof of the first-row value is "number", else
STRING, fidelity fixed to "inferred". -/
def columnTypesOf (result : List Row) : List ColumnType :=
  (objectKeys (firstRowOrEmpty result)).map (fun key =>
    { name := key
      evidenceType :=
        if (jsGet (firstRowOrEmpty result) key).typeof = "number"
        then EvidenceType.NUMBER else EvidenceType.STRING
      typeFidelity := "inferred" })

/-- An error value raised by the external client; carried opaquely. -/
structure JSError where
  message : String
deriving DecidableEq

/-- The request object passed to client.query (index.js lines 54-57). -/
structure ClientQuery where
  query : String
  format : String
deriving DecidableEq

/-- Observable side effects of the adapter: console writes and network
submissions to the external client. -/
inductive Effect where
  | consoleDebug (msg : String)
  | consoleError (msg : String) (e : JSError)
  | networkRequest (req : ClientQuery)
deriving DecidableEq

/-- Whether an effect is a console (diagnostic log) write. -/
def Effect.isConsoleLog : Effect → Bool
  | .consoleDebug _ => true
  | .consoleError _ _ => true
  | .networkRequest _ => false

/-- Whether an effect is a network submission. -/
def Effect.isNetworkRequest : Effect → Bool
  | .networkRequest _ => true
  | _ => false

/-- The connection configuration handed to getRunner.  url, username and
password come from the declared options schema; SomeOption is not in the
schema, so it is optional (absent means undefined in JS). -/
structure ConnectorOptions where
  url : String
  username : String
  password : String
  someOption : Option String
deriving DecidableEq

/-- The in-memory client handle produced by createClient: it only stores
the configuration; no connection is opened at construction time. -/
structure ClientHandle where
  url : String
  username : String
  password : String
deriving DecidableEq

/-- createClient from the vendor client library, as used at index.js lines
46-50: in-memory handle construction bound to the configuration. -/
def createClient (url username password : String) : ClientHandle :=
  { url := url, username := username, password := password }

/-- Template-literal interpolation of a possibly-undefined string value:
JS renders undefined as the text "undefined". -/
def jsInterp (v : Option String) : String := v.getD "undefined"

/-- getRunner (index.js lines 43-78): logs one debug line interpolating
options.SomeOption, constructs the client handle, and returns (here: the
handle that parametrises the runner closure).  The Except layer records
that the construction never raises. -/
def getRunner (options : ConnectorOptions) :
    Except JSError ClientHandle × List Effect :=
  (Except.ok (createClient options.url options.username options.password),
   [Effect.consoleDebug ("SomeOption = " ++ jsInterp options.someOption)])

/-- The request the runner submits for a query text: format JSONEachRow. -/
def clientRequest (queryText : String) : ClientQuery :=
  { query := queryText, format := "JSONEachRow" }

/-- The async closure returned by getRunner (index.js lines 52-77).  The
external client is the oracle argument; queryPath is the unused second
parameter.  On success the envelope is returned and the only effect is the
network submission; on failure the error is logged once via console.error
and re-raised unchanged. -/
def runQuery {α : Type} (client : ClientQuery → Except JSError (List Row))
    (queryText : String) (queryPath : α) :
    Except JSError QueryResult × List Effect :=
  match client (clientRequest queryText) with
  | Except.ok result =>
      (Except.ok
        { rows := result
          columnTypes := columnTypesOf result
          expectedRowCount := result.length },
       [Effect.networkRequest (clientRequest queryText)])
  | Except.error e =>
      (Except.error e,
       [Effect.networkRequest (clientRequest queryText),
        Effect.consoleError "Error executing query:" e])

/-- testConnection (index.js lines 122-124): unconditionally true. -/
def testConnection (opts : ConnectorOptions) : Bool := true

/-- All console output the adapter itself produces across one construction
and a sequence of runner invocations against a fixed client oracle. -/
def adapterConsoleOutput (options : ConnectorOptions)
    (client : ClientQuery → Except JSError (List Row))
    (queries : List String) : List Effect :=
  ((getRunner options).2 ++
      queries.flatMap (fun q => (runQuery client q ()).2)).filter
    Effect.isConsoleLog

/-- Concrete client oracle used by witnesses: succeeds with two rows, the
second row carrying a fractional number and differing strings, matching
the round-trip example of the specification. -/
def exampleClientOk : ClientQuery → Except JSError (List Row) :=
  fun _ => Except.ok
    [[("a", JSValue.num 1), ("b", JSValue.str "x")],
     [("a", JSValue.num (5 / 2)), ("b", JSValue.str "y")]]

/-- Concrete client oracle used by witnesses: always fails with a network
error. -/
def exampleClientErr : ClientQuery → Except JSError (List Row) :=
  fun _ => Except.error { message := "connect ECONNREFUSED" }

/-- C1: column-type inference is a pure function of the first row's values:
a descriptor is NUMBER exactly when the first-row value under its name has
runtime type "number", any other runtime type (string, null via typeof
"object", boolean, object, undefined) yields STRING, and the descriptor
list depends only on the first row. -/
theorem columnType_classification (result : List Row) (ct : ColumnType)
    (hct : ct ∈ columnTypesOf result) :
    (ct.evidenceType = EvidenceType.NUMBER ↔
        (jsGet (firstRowOrEmpty result) ct.name).typeof = "number") ∧
    ((jsGet (firstRowOrEmpty result) ct.name).typeof ≠ "number" →
        ct.evidenceType = EvidenceType.STRING) ∧
    columnTypesOf result = columnTypesOf [firstRowOrEmpty result] := by
  refine ⟨?_, ?_, rfl⟩ <;>
  · simp only [columnTypesOf, List.mem_map] at hct
    obtain ⟨key, hkey, rfl⟩ := hct
    by_cases h : (jsGet (firstRowOrEmpty result) key).typeof = "number" <;>
      simp [h]

/-- Witness for C1 at a concrete two-column result. -/
theorem columnType_classification_witness :
    ((ColumnType.mk "a" EvidenceType.NUMBER "inferred").evidenceType =
        EvidenceType.NUMBER ↔
      (jsGet
          (firstRowOrEmpty
            [[("a", JSValue.num 1), ("b", JSValue.str "x")]]) "a").typeof =
        "number") ∧
    ((jsGet
          (firstRowOrEmpty
            [[("a", JSValue.num 1), ("b", JSValue.str "x")]]) "a").typeof ≠
        "number" →
      (ColumnType.mk "a" EvidenceType.NUMBER "inferred").evidenceType =
        EvidenceType.STRING) ∧
    columnTypesOf [[("a", JSValue.num 1), ("b", JSValue.str "x")]] =
      columnTypesOf
        [firstRowOrEmpty [[("a", JSValue.num 1), ("b", JSValue.str "x")]]] :=
  columnType_classification
    [[("a", JSValue.num 1), ("b", JSValue.str "x")]]
    (ColumnType.mk "a" EvidenceType.NUMBER "inferred") (by decide)

/-- C2: columnTypes is computed only from the first row: the descriptor
names are exactly the first row's keys in enumeration order, its length is
the number of distinct keys of the first row, an empty result yields the
empty descriptor list, and replacing the result by its first row alone
leaves the descriptors unchanged. -/
theorem columnTypes_first_row_only (result : List Row)
    (hn : (objectKeys (firstRowOrEmpty result)).Nodup) :
    (columnTypesOf result).map (fun ct => ct.name) =
        objectKeys (firstRowOrEmpty result) ∧
    (columnTypesOf result).length =
        (objectKeys (firstRowOrEmpty result)).dedup.length ∧
    (result = [] → columnTypesOf result = []) ∧
    columnTypesOf result = columnTypesOf [firstRowOrEmpty result] := by
  refine ⟨?_, ?_, ?_, rfl⟩
  · simp [columnTypesOf, List.map_map, Function.comp_def]
  · rw [List.dedup_eq_self.mpr hn]
    simp [columnTypesOf]
  · intro he
    subst he
    rfl

/-- Witness for C2 at a concrete two-column result. -/
theorem columnTypes_first_row_only_witness :
    (columnTypesOf
          [[("a", JSValue.num 1), ("b", JSValue.str "x")]]).map
        (fun ct => ct.name) =
      objectKeys
        (firstRowOrEmpty [[("a", JSValue.num 1), ("b", JSValue.str "x")]]) ∧
    (columnTypesOf [[("a", JSValue.num 1), ("b", JSValue.str "x")]]).length =
      (objectKeys
          (firstRowOrEmpty
            [[("a", JSValue.num 1), ("b", JSValue.str "x")]])).dedup.length ∧
    ([[("a", JSValue.num 1), ("b", JSValue.str "x")]] =
        ([] : List Row) →
      columnTypesOf [[("a", JSValue.num 1), ("b", JSValue.str "x")]] = []) ∧
    columnTypesOf [[("a", JSValue.num 1), ("b", JSValue.str "x")]] =
      columnTypesOf
        [firstRowOrEmpty [[("a", JSValue.num 1), ("b", JSValue.str "x")]]] :=
  columnTypes_first_row_only
    [[("a", JSValue.num 1), ("b", JSValue.str "x")]] (by decide)

/-- C3: whenever the client materialises a row list, the runner returns an
envelope whose expectedRowCount equals the length of its rows sequence; in
particular an empty result set gives expectedRowCount zero. -/
theorem runQuery_expectedRowCount {α : Type}
    (client : ClientQuery → Except JSError (List Row))
    (q : String) (p : α) (result : List Row)
    (h : client (clientRequest q) = Except.ok result) :
    ∃ out : QueryResult,
      (runQuery client q p).1 = Except.ok out ∧
      out.expectedRowCount = out.rows.length ∧
      (result = [] → out.expectedRowCount = 0) := by
  refine ⟨{ rows := result
            columnTypes := columnTypesOf result
            expectedRowCount := result.length }, ?_, rfl, ?_⟩
  · simp [runQuery, h]
  · intro he
    simp [he]

/-- Witness for C3 with the concrete succeeding client. -/
theorem runQuery_expectedRowCount_witness :
    ∃ out : QueryResult,
      (runQuery exampleClientOk "SELECT 1" ()).1 = Except.ok out ∧
      out.expectedRowCount = out.rows.length ∧
      ([[("a", JSValue.num 1), ("b", JSValue.str "x")],
        [("a", JSValue.num (5 / 2)), ("b", JSValue.str "y")]] =
          ([] : List Row) →
        out.expectedRowCount = 0) :=
  runQuery_expectedRowCount exampleClientOk "SELECT 1" ()
    [[("a", JSValue.num 1), ("b", JSValue.str "x")],
     [("a", JSValue.num (5 / 2)), ("b", JSValue.str "y")]] rfl

/-- C4: row values delivered by the client pass through the runner
verbatim: the envelope's rows field is exactly the client's row list, with
no value mutated, re-typed, or coerced to the inferred column type. -/
theorem runQuery_rows_pass_through {α : Type}
    (client : ClientQuery → Except JSError (List Row))
    (q : String) (p : α) (result : List Row)
    (h : client (clientRequest q) = Except.ok result) :
    ∃ out : QueryResult,
      (runQuery client q p).1 = Except.ok out ∧ out.rows = result := by
  refine ⟨{ rows := result
            columnTypes := columnTypesOf result
            expectedRowCount := result.length }, ?_, rfl⟩
  simp [runQuery, h]

/-- Witness for C4: the second row's fractional 5/2 under a column inferred
NUMBER from the integral first row is carried verbatim. -/
theorem runQuery_rows_pass_through_witness :
    ∃ out : QueryResult,
      (runQuery exampleClientOk "SELECT 1" ()).1 = Except.ok out ∧
      out.rows =
        [[("a", JSValue.num 1), ("b", JSValue.str "x")],
         [("a", JSValue.num (5 / 2)), ("b", JSValue.str "y")]] :=
  runQuery_rows_pass_through exampleClientOk "SELECT 1" ()
    [[("a", JSValue.num 1), ("b", JSValue.str "x")],
     [("a", JSValue.num (5 / 2)), ("b", JSValue.str "y")]] rfl

/-- C5: when the client fails, the runner produces exactly one diagnostic
console entry (the console.error line) and re-raises the identical error
value, returning no result envelope: its full output is the error together
with the submission effect and that single log entry. -/
theorem runQuery_error_logged_and_reraised {α : Type}
    (client : ClientQuery → Except JSError (List Row))
    (q : String) (p : α) (e : JSError)
    (h : client (clientRequest q) = Except.error e) :
    runQuery client q p =
      (Except.error e,
       [Effect.networkRequest (clientRequest q),
        Effect.consoleError "Error executing query:" e]) ∧
    ((runQuery client q p).2.filter Effect.isConsoleLog) =
      [Effect.consoleError "Error executing query:" e] := by
  constructor <;> simp [runQuery, h, Effect.isConsoleLog]

/-- Witness for C5 with the concrete failing client. -/
theorem runQuery_error_logged_and_reraised_witness :
    runQuery exampleClientErr "SELECT 1" () =
      (Except.error { message := "connect ECONNREFUSED" },
       [Effect.networkRequest (clientRequest "SELECT 1"),
        Effect.consoleError "Error executing query:"
          { message := "connect ECONNREFUSED" }]) ∧
    ((runQuery exampleClientErr "SELECT 1" ()).2.filter
        Effect.isConsoleLog) =
      [Effect.consoleError "Error executing query:"
        { message := "connect ECONNREFUSED" }] :=
  runQuery_error_logged_and_reraised exampleClientErr "SELECT 1" ()
    { message := "connect ECONNREFUSED" } rfl

/-- C6: testConnection returns true for every configuration,
unconditionally. -/
theorem testConnection_always_true (opts : ConnectorOptions) :
    testConnection opts = true := rfl

/-- C7: every column-type descriptor in any envelope the runner returns
carries fidelity exactly "inferred". -/
theorem runQuery_fidelity_inferred {α : Type}
    (client : ClientQuery → Except JSError (List Row))
    (q : String) (p : α) (out : QueryResult)
    (hout : (runQuery client q p).1 = Except.ok out)
    (ct : ColumnType) (hct : ct ∈ out.columnTypes) :
    ct.typeFidelity = "inferred" := by
  cases hc : client (clientRequest q) with
  | ok result =>
      simp only [runQuery, hc] at hout
      cases hout
      simp only [columnTypesOf, List.mem_map] at hct
      obtain ⟨key, hkey, rfl⟩ := hct
      rfl
  | error e =>
      simp [runQuery, hc] at hout

/-- Witness for C7 at the concrete succeeding client. -/
theorem runQuery_fidelity_inferred_witness :
    (ColumnType.mk "a" EvidenceType.NUMBER "inferred").typeFidelity =
      "inferred" :=
  runQuery_fidelity_inferred exampleClientOk "SELECT 1" ()
    { rows :=
        [[("a", JSValue.num 1), ("b", JSValue.str "x")],
         [("a", JSValue.num (5 / 2)), ("b", JSValue.str "y")]]
      columnTypes :=
        columnTypesOf
          [[("a", JSValue.num 1), ("b", JSValue.str "x")],
           [("a", JSValue.num (5 / 2)), ("b", JSValue.str "y")]]
      expectedRowCount := 2 }
    rfl (ColumnType.mk "a" EvidenceType.NUMBER "inferred")
    (by decide)

/-- C8 counterexample: construction is not side-effect-free beyond
in-memory client-handle setup — at a concrete configuration, getRunner
emits a console write during construction. -/
theorem getRunner_construction_side_effect :
    ((getRunner
          { url := "http://localhost:8123", username := "default",
            password := "secret", someOption := none }).2.filter
        Effect.isConsoleLog) ≠ [] := by decide

/-- C8 (amended): getRunner returns a runner handle for every
configuration without raising any error and without performing network
I/O; its only construction-time side effects beyond the in-memory handle
setup are a single console debug line. -/
theorem getRunner_construction_contract (o : ConnectorOptions) :
    (getRunner o).1 =
        Except.ok (createClient o.url o.username o.password) ∧
    (getRunner o).2 =
        [Effect.consoleDebug ("SomeOption = " ++ jsInterp o.someOption)] ∧
    (getRunner o).2.all (fun eff => !eff.isNetworkRequest) = true :=
  ⟨rfl, rfl, rfl⟩

/-- C9: the runner's entire output is independent of its second argument:
two invocations with the same client behaviour and query text but
arbitrary, differently-typed sourceFileReference values return identical
results and effects — the parameter is never read. -/
theorem runQuery_ignores_query_path {α β : Type}
    (client : ClientQuery → Except JSError (List Row))
    (q : String) (p : α) (p2 : β) :
    runQuery client q p = runQuery client q p2 := rfl

/-- C10: the credential never reaches the adapter's own console output:
for any configuration, client behaviour and query sequence, changing the
password changes nothing in the diagnostic output (noninterference), so
the logs carry no information about the credential. -/
theorem adapter_logs_password_noninterference (o : ConnectorOptions)
    (pw : String) (client : ClientQuery → Except JSError (List Row))
    (qs : List String) :
    adapterConsoleOutput { o with password := pw } client qs =
      adapterConsoleOutput o client qs := rfl

end Clickhouse
